import Mathlib

/-!
Verification development for the CaffeineApp backend (two Python modules:
`app.py`, the Flask request handlers, and `db.py`, the SQLite data layer).

Shallow embedding conventions:
* The three SQLite tables (`users`, `beverages`, `consumption_log`) are lists
  of rows together with the next autoincrement id for each table.
* `TIMESTAMP` values relevant to the claims only ever flow through
  `DATE(consumption_time)` comparisons at calendar-day granularity, so a
  point in time is modelled as an integer day index; the current date is an
  explicit parameter of each handler (Python reads `datetime.date.today()`).
* JSON request bodies are modelled as per-endpoint records with `Option`
  fields (`body.get(k)` returning `None` becomes `none`).  Fields are typed,
  so the `int(...)` / `float(...)` coercions of the handlers always succeed;
  every claim treated here quantifies only over well-typed bodies, the
  coercion-failure 400 branches are therefore not reachable in the statements
  below and are omitted from the embedding.
* An HTTP response is a status code plus a typed payload
  (`success_response` / `failure_response`); an unhandled Python exception
  (Flask turns it into a bare 500) is the distinguished outcome `crash`.
-/

/-- Row of the `users` table (db.py, `create_users_table`). -/
structure User where
  id : Nat
  username : String
  email : String
  password_hash : String
  created_at : Int
  daily_caffeine_limit : Int
  weight_lbs : Rat
deriving DecidableEq, Repr

/-- Row of the `beverages` table (db.py, `create_beverages_table`). -/
structure Beverage where
  id : Nat
  name : String
  caffeine_content_mg : Int
  image_url : Option String
  category : Option String
deriving DecidableEq, Repr

/-- Row of the `consumption_log` table (db.py, `create_consumption_log_table`);
`consumption_time` is kept at `DATE` granularity, see the header comment. -/
structure Consumption where
  id : Nat
  user_id : Nat
  beverage_id : Nat
  consumption_time : Int
  serving_count : Int
deriving DecidableEq, Repr

/-- The whole SQLite database: the three tables plus the autoincrement
counters (`lastrowid` of the next insert in each table). -/
structure DBState where
  users : List User
  beverages : List Beverage
  consumption_log : List Consumption
  next_user_id : Nat
  next_beverage_id : Nat
  next_consumption_id : Nat
deriving DecidableEq, Repr

/-- Outcome of one request: `success_response`, `failure_response`, or an
unhandled Python exception (which Flask reports as HTTP 500). -/
inductive HResp (α : Type) where
  | ok (status : Nat) (payload : α)
  | failure (status : Nat) (msg : String)
  | crash (msg : String)
deriving DecidableEq, Repr

namespace Db

/-- db.py `get_all_users`: `SELECT * FROM users`. -/
def get_all_users (s : DBState) : List User :=
  s.users

/-- db.py `get_user_by_id`: `SELECT * FROM users WHERE id = ?`, first row or
`None`. -/
def get_user_by_id (s : DBState) (id : Nat) : Option User :=
  s.users.find? (fun u => u.id == id)

/-- db.py `delete_user_by_id`: `DELETE FROM users WHERE id = ?`. -/
def delete_user_by_id (s : DBState) (id : Nat) : DBState :=
  { s with users := s.users.filter (fun u => u.id != id) }

/-- db.py `insert_beverage`: `INSERT INTO beverages ...`, returning
`lastrowid` and the new state. -/
def insert_beverage (s : DBState) (name : String) (caffeine_content_mg : Int)
    (image_url category : Option String) : Nat × DBState :=
  (s.next_beverage_id,
   { s with
      beverages := s.beverages ++
        [{ id := s.next_beverage_id, name := name,
           caffeine_content_mg := caffeine_content_mg,
           image_url := image_url, category := category }],
      next_beverage_id := s.next_beverage_id + 1 })

/-- db.py `get_beverage_by_id`: `SELECT * FROM beverages WHERE id = ?`, first
row or `None`. -/
def get_beverage_by_id (s : DBState) (id : Nat) : Option Beverage :=
  s.beverages.find? (fun b => b.id == id)

/-- db.py `update_beverage_by_id`: `UPDATE beverages SET name = ?,
caffeine_content_mg = ?, image_url = ?, category = ? WHERE id = ?`. -/
def update_beverage_by_id (s : DBState) (id : Nat) (name : String)
    (caffeine_content_mg : Int) (image_url category : Option String) : DBState :=
  { s with beverages := s.beverages.map (fun b =>
      if b.id == id then
        { b with name := name, caffeine_content_mg := caffeine_content_mg,
                 image_url := image_url, category := category }
      else b) }

/-- db.py `insert_consumption`: `INSERT INTO consumption_log (user_id,
beverage_id, serving_count) VALUES (?, ?, ?)`; `consumption_time` takes the
`CURRENT_TIMESTAMP` default, passed here as the explicit parameter `now`. -/
def insert_consumption (s : DBState) (user_id beverage_id : Nat)
    (serving_count : Int) (now : Int) : Nat × DBState :=
  (s.next_consumption_id,
   { s with
      consumption_log := s.consumption_log ++
        [{ id := s.next_consumption_id, user_id := user_id, beverage_id := beverage_id,
           consumption_time := now, serving_count := serving_count }],
      next_consumption_id := s.next_consumption_id + 1 })

/-- db.py `get_consumption_by_user_id`: `SELECT * FROM consumption_log WHERE
user_id = ?`. -/
def get_consumption_by_user_id (s : DBState) (user_id : Nat) : List Consumption :=
  s.consumption_log.filter (fun c => c.user_id == user_id)

/-- db.py `get_consumption_by_user_and_date`: `SELECT * FROM consumption_log
WHERE user_id = ? AND DATE(consumption_time) = ?`. -/
def get_consumption_by_user_and_date (s : DBState) (user_id : Nat) (date : Int) :
    List Consumption :=
  s.consumption_log.filter (fun c => c.user_id == user_id && c.consumption_time == date)

/-- db.py `delete_consumption_by_id`: `DELETE FROM consumption_log WHERE
id = ?`. -/
def delete_consumption_by_id (s : DBState) (id : Nat) : DBState :=
  { s with consumption_log := s.consumption_log.filter (fun c => c.id != id) }

/-- Modelled from the spec: db.py defines no `get_consumption_by_id`, though
app.py calls `DB.get_consumption_by_id` in its consumption handlers.  Per the
spec (design notes) the canonical behaviour is a direct lookup of the entry by
its primary key, returning the row or `None`. -/
def get_consumption_by_id (s : DBState) (id : Nat) : Option Consumption :=
  s.consumption_log.find? (fun c => c.id == id)

/-- Modelled from the spec: db.py defines no `update_consumption_by_id`,
though app.py calls `DB.update_consumption_by_id(log_id, new_serving_count)`.
Per the spec (operation table: "replace serving_count"; design notes: an
in-place field update preserving identity and timestamp) the row keeps its id
and `consumption_time` and only `serving_count` is replaced. -/
def update_consumption_by_id (s : DBState) (id : Nat) (serving_count : Int) : DBState :=
  { s with consumption_log := s.consumption_log.map (fun c =>
      if c.id == id then { c with serving_count := serving_count } else c) }

end Db

/-- Caffeine contributed by one consumption entry, as the spec writes it:
`beverage.caffeine_content_mg * entry.serving_count` (0 if the referenced
beverage row is absent). -/
def caffeineOf (s : DBState) (c : Consumption) : Int :=
  match Db.get_beverage_by_id s c.beverage_id with
  | some b => b.caffeine_content_mg * c.serving_count
  | none => 0

/-- The daily total of the spec: the sum of
`beverage.caffeine_content_mg * entry.serving_count` over all of the user's
consumption entries on the given calendar date. -/
def dailyTotalSpec (s : DBState) (user_id : Nat) (date : Int) : Int :=
  ((Db.get_consumption_by_user_and_date s user_id date).map (caffeineOf s)).sum

/-- Every beverage referenced by one of the user's consumption entries is
present in the `beverages` table (the handlers subscript the looked-up
beverage without a `None` check, so this is what keeps them from crashing). -/
def BevsOk (s : DBState) (user_id : Nat) : Prop :=
  ∀ c ∈ s.consumption_log, c.user_id = user_id →
    (Db.get_beverage_by_id s c.beverage_id).isSome = true

instance (s : DBState) (user_id : Nat) : Decidable (BevsOk s user_id) := by
  unfold BevsOk; infer_instance

/-- All ids already present in `consumption_log` are below the autoincrement
counter (true of every state SQLite produces). -/
def LogIdsFresh (s : DBState) : Prop :=
  ∀ c ∈ s.consumption_log, c.id < s.next_consumption_id

instance (s : DBState) : Decidable (LogIdsFresh s) := by
  unfold LogIdsFresh; infer_instance

/-- All ids already present in `beverages` are below the autoincrement
counter (true of every state SQLite produces). -/
def BevIdsFresh (s : DBState) : Prop :=
  ∀ b ∈ s.beverages, b.id < s.next_beverage_id

instance (s : DBState) : Decidable (BevIdsFresh s) := by
  unfold BevIdsFresh; infer_instance

/-- One line of the `breakdown` list built by `get_consumption_today`. -/
structure BreakdownItem where
  beverage : String
  servings : Int
  caffeine_mg : Int
deriving DecidableEq, Repr

/-- Payload of `GET /users/{id}/consumption/today`. -/
structure TodayPayload where
  date : Int
  total_caffeine_mg : Int
  breakdown : List BreakdownItem
deriving DecidableEq, Repr

/-- Payload of `GET /users/{id}/stats`. -/
structure StatsPayload where
  user_id : Nat
  daily_total_caffeine_mg : Int
  daily_limit_mg : Int
  percentage_of_limit : Rat
  remaining_mg : Int
deriving DecidableEq, Repr

/-- JSON body of `POST /beverages` (and of `PUT /beverages/{id}`, had that
handler read its body). -/
structure BeverageBody where
  name : Option String
  image_url : Option String
  category : Option String
  caffeine_content_mg : Option Int
deriving DecidableEq, Repr

/-- JSON body of `POST /users/{id}/consumptions`. -/
structure ConsumptionCreateBody where
  beverage_id : Option Nat
  serving_count : Option Int
deriving DecidableEq, Repr

/-- JSON body of `PUT /users/{id}/consumptions/{log_id}`. -/
structure ConsumptionUpdateBody where
  serving_count : Option Int
deriving DecidableEq, Repr

/-- Python `round` (banker's rounding, half to even) of a rational to the
nearest integer, computed on the numerator and denominator: `f` is the floor
of `q`, `r / d` its fractional part, and ties (`2 * r = d`) go to the even
neighbour. -/
def roundHalfEven (q : Rat) : Int :=
  let n := q.num
  let d := (q.den : Int)
  let f := n.ediv d
  let r := n.emod d
  if 2 * r < d then f
  else if d < 2 * r then f + 1
  else if f % 2 = 0 then f else f + 1

/-- Python `round(q, 2)`: round to 2 decimal places, half to even. -/
def pyRound2 (q : Rat) : Rat :=
  (roundHalfEven (q * 100) : Rat) / 100

namespace App

/-- The accumulation loop shared by `get_consumption_weekly` and
`get_user_stats` (app.py): `total = 0; for consumption in consumptions:
beverage = DB.get_beverage_by_id(...); total += beverage["caffeine_content_mg"]
* consumption["serving_count"]`.  Subscripting a `None` beverage raises, hence
the `Option` result. -/
def sumCaffeineLoop (s : DBState) (total : Int) : List Consumption → Option Int
  | [] => some total
  | c :: rest =>
    match Db.get_beverage_by_id s c.beverage_id with
    | none => none
    | some b => sumCaffeineLoop s (total + b.caffeine_content_mg * c.serving_count) rest

/-- The loop of `get_consumption_today` (app.py), which also builds the
`breakdown` list as it accumulates the total. -/
def todayLoop (s : DBState) (total : Int) (breakdown : List BreakdownItem) :
    List Consumption → Option (Int × List BreakdownItem)
  | [] => some (total, breakdown)
  | c :: rest =>
    match Db.get_beverage_by_id s c.beverage_id with
    | none => none
    | some b =>
      let caffeine_amount := b.caffeine_content_mg * c.serving_count
      todayLoop s (total + caffeine_amount)
        (breakdown ++ [{ beverage := b.name, servings := c.serving_count,
                         caffeine_mg := caffeine_amount }]) rest

/-- app.py `get_consumption_today` (`GET /users/{id}/consumption/today`):
no user-existence check; sums the entries dated `today` and reports the
total together with a per-entry breakdown. -/
def get_consumption_today (s : DBState) (today : Int) (user_id : Nat) :
    HResp TodayPayload :=
  let consumptions := Db.get_consumption_by_user_and_date s user_id today
  match todayLoop s 0 [] consumptions with
  | none => .crash "TypeError: beverage is None"
  | some (total_caffeine, breakdown) =>
    .ok 200 { date := today, total_caffeine_mg := total_caffeine,
              breakdown := breakdown }

/-- The `for i in range(7)` loop of `get_consumption_weekly` (app.py),
building the summary dict in insertion order (most recent date first). -/
def weeklyLoop (s : DBState) (user_id : Nat) (today : Int) :
    List Nat → Option (List (Int × Int))
  | [] => some []
  | i :: rest =>
    let date := today - (i : Int)
    match sumCaffeineLoop s 0 (Db.get_consumption_by_user_and_date s user_id date) with
    | none => none
    | some total_caffeine =>
      (weeklyLoop s user_id today rest).map (fun l => (date, total_caffeine) :: l)

/-- app.py `get_consumption_weekly` (`GET /users/{id}/consumption/weekly`):
one entry per day for the 7 calendar dates ending today, keyed by date in
insertion order (dict preserving insertion order, i = 0 first). -/
def get_consumption_weekly (s : DBState) (today : Int) (user_id : Nat) :
    HResp (List (Int × Int)) :=
  match weeklyLoop s user_id today (List.range 7) with
  | none => .crash "TypeError: beverage is None"
  | some weekly_summary => .ok 200 weekly_summary

/-- app.py `get_user_stats` (`GET /users/{id}/stats`): fetches the user with
no `None` check (a missing user raises only when `user["daily_caffeine_limit"]`
is subscripted, after the summation loop), computes the daily total, the
percentage of the limit (0 when the limit is not positive) rounded to 2
decimal places, and the non-negative remaining milligrams. -/
def get_user_stats (s : DBState) (today : Int) (user_id : Nat) :
    HResp StatsPayload :=
  let user := Db.get_user_by_id s user_id
  let consumptions := Db.get_consumption_by_user_and_date s user_id today
  match sumCaffeineLoop s 0 consumptions with
  | none => .crash "TypeError: beverage is None"
  | some total_caffeine =>
    match user with
    | none => .crash "TypeError: user is None"
    | some u =>
      let daily_limit := u.daily_caffeine_limit
      let percentage : Rat :=
        if daily_limit > 0 then (total_caffeine : Rat) / (daily_limit : Rat) * 100 else 0
      .ok 200 { user_id := user_id, daily_total_caffeine_mg := total_caffeine,
                daily_limit_mg := daily_limit,
                percentage_of_limit := pyRound2 percentage,
                remaining_mg := max 0 (daily_limit - total_caffeine) }

/-- app.py `create_beverage` (`POST /beverages`): validates `name` (Python
truthiness, so a missing or empty name is rejected) and
`caffeine_content_mg` (required, non-negative), inserts the row and returns
the row fetched back by the new id with status 201. -/
def create_beverage (s : DBState) (body : Option BeverageBody) :
    HResp (Option Beverage) × DBState :=
  match body with
  | none => (.failure 400 "Request body must be JSON", s)
  | some b =>
    match b.name with
    | none => (.failure 400 "Field name is required", s)
    | some name =>
      if name = "" then (.failure 400 "Field name is required", s)
      else
        match b.caffeine_content_mg with
        | none => (.failure 400 "Field caffeine_content_mg is required", s)
        | some caffeine_content_mg =>
          if caffeine_content_mg < 0 then
            (.failure 400 "caffeine_content_mg must be non-negative", s)
          else
            let r := Db.insert_beverage s name caffeine_content_mg b.image_url b.category
            (.ok 201 (Db.get_beverage_by_id r.2 r.1), r.2)

/-- app.py `update_beverage` (`PUT /beverages/{id}`): after the existence
check the handler sets `body = request` (app.py line 99) instead of parsing
the JSON body, so `body.get("name")` at line 103 calls a method the Flask
request object does not have and raises `AttributeError`; Flask reports the
unhandled exception as HTTP 500.  `DB.update_beverage_by_id` is never
reached. -/
def update_beverage (s : DBState) (bev_id : Nat) : HResp (Option Beverage) × DBState :=
  match Db.get_beverage_by_id s bev_id with
  | none => (.failure 404 "Beverage not found", s)
  | some _ => (.crash "AttributeError: request object has no attribute get", s)

/-- app.py `log_consumption` (`POST /users/{id}/consumptions`): checks the
user (404), the body (400), `beverage_id` (required), `serving_count`
(default 1, must be at least 1), the beverage (404); then inserts the row
with the current timestamp and returns the row fetched back by the new id
with status 201. -/
def log_consumption (s : DBState) (now : Int) (user_id : Nat)
    (body : Option ConsumptionCreateBody) : HResp (Option Consumption) × DBState :=
  match Db.get_user_by_id s user_id with
  | none => (.failure 404 "User not found", s)
  | some _ =>
    match body with
    | none => (.failure 400 "Request body must be JSON", s)
    | some b =>
      match b.beverage_id with
      | none => (.failure 400 "beverage_id is required", s)
      | some beverage_id =>
        let serving_count := b.serving_count.getD 1
        if serving_count ≤ 0 then (.failure 400 "serving_count must be at least 1", s)
        else if (Db.get_beverage_by_id s beverage_id).isNone then
          (.failure 404 "Beverage not found", s)
        else
          let r := Db.insert_consumption s user_id beverage_id serving_count now
          (.ok 201 (Db.get_consumption_by_id r.2 r.1), r.2)

/-- app.py `delete_user` (`DELETE /users/{id}`): no existence check; deletes
every consumption entry owned by the user (one `delete_consumption_by_id`
per entry of the `get_consumption_by_user_id` snapshot), then deletes the
user row, and returns the confirmation payload `user_deleted = user_id`. -/
def delete_user (s : DBState) (user_id : Nat) : HResp Nat × DBState :=
  let consumptions := Db.get_consumption_by_user_id s user_id
  let s1 := consumptions.foldl (fun st c => Db.delete_consumption_by_id st c.id) s
  let s2 := Db.delete_user_by_id s1 user_id
  (.ok 200 user_id, s2)

/-- app.py `delete_consumption` (`DELETE /users/{id}/consumptions/{log_id}`):
checks that the path user exists (404) and that the entry exists (404), then
deletes the entry; there is no ownership check between the two. -/
def delete_consumption (s : DBState) (user_id log_id : Nat) :
    HResp Consumption × DBState :=
  match Db.get_user_by_id s user_id with
  | none => (.failure 404 "User not found", s)
  | some _ =>
    match Db.get_consumption_by_id s log_id with
    | none => (.failure 404 "Consumption entry not found", s)
    | some consumption =>
      (.ok 200 consumption, Db.delete_consumption_by_id s log_id)

/-- app.py `update_consumption` (`PUT /users/{id}/consumptions/{log_id}`):
checks the path user (404), the body and `serving_count` (400), the entry
(404) and then ownership (403) before replacing the serving count. -/
def update_consumption (s : DBState) (user_id log_id : Nat)
    (body : Option ConsumptionUpdateBody) : HResp (Option Consumption) × DBState :=
  match Db.get_user_by_id s user_id with
  | none => (.failure 404 "User not found", s)
  | some _ =>
    match body with
    | none => (.failure 400 "Request body must be JSON", s)
    | some b =>
      match b.serving_count with
      | none => (.failure 400 "serving_count is required", s)
      | some new_serving_count =>
        if new_serving_count ≤ 0 then
          (.failure 400 "serving_count must be at least 1", s)
        else
          match Db.get_consumption_by_id s log_id with
          | none => (.failure 404 "Consumption entry not found", s)
          | some consumption =>
            if consumption.user_id ≠ user_id then
              (.failure 403 "Consumption entry does not belong to this user", s)
            else
              let s2 := Db.update_consumption_by_id s log_id new_serving_count
              (.ok 200 (Db.get_consumption_by_id s2 log_id), s2)

/-- app.py `get_all_consumption` (`GET /consumption`, admin): collects the
consumption lists of all users with `all_consumptions.extend(...)` in a
loop over `get_all_users`. -/
def get_all_consumption (s : DBState) : HResp (List Consumption) :=
  .ok 200 ((Db.get_all_users s).foldl
    (fun all_consumptions u => all_consumptions ++ Db.get_consumption_by_user_id s u.id) [])

end App

/-- The reported total of a successful `GET /users/{id}/consumption/today`
response, `none` for any non-200 outcome. -/
def reportedTotal : HResp TodayPayload → Option Int
  | .ok 200 p => some p.total_caffeine_mg
  | _ => none

/-- HTTP status of a response (an unhandled exception is reported by Flask
as 500). -/
def statusOf {α : Type} : HResp α → Nat
  | .ok c _ => c
  | .failure c _ => c
  | .crash _ => 500

/-- Payload of the admin consumption listing (empty for a non-success
response, which `get_all_consumption` never produces). -/
def consumptionPayload : HResp (List Consumption) → List Consumption
  | .ok _ l => l
  | _ => []

/-- Every consumption entry references an existing user (the referential
invariant the spec states in its data-model section). -/
def UsersOk (s : DBState) : Prop :=
  ∀ c ∈ s.consumption_log, (Db.get_user_by_id s c.user_id).isSome = true

instance (s : DBState) : Decidable (UsersOk s) := by
  unfold UsersOk; infer_instance

/-! Concrete database states used as witnesses and counterexamples. -/

/-- Sample user with daily limit 100 mg. -/
def u1 : User :=
  { id := 1, username := "alice", email := "alice@example.com",
    password_hash := "h1", created_at := 0, daily_caffeine_limit := 100,
    weight_lbs := 160 }

/-- Sample user with daily limit 400 mg. -/
def u2 : User :=
  { id := 2, username := "bob", email := "bob@example.com",
    password_hash := "h2", created_at := 0, daily_caffeine_limit := 400,
    weight_lbs := 160 }

/-- Sample user with non-positive daily limit (states like this are what the
zero-limit branch of the stats percentage is about). -/
def u3 : User :=
  { id := 3, username := "carol", email := "carol@example.com",
    password_hash := "h3", created_at := 0, daily_caffeine_limit := 0,
    weight_lbs := 160 }

/-- Sample beverage, 75 mg caffeine per serving. -/
def b1 : Beverage :=
  { id := 1, name := "Coffee", caffeine_content_mg := 75,
    image_url := none, category := some "coffee" }

/-- Sample beverage, 95 mg caffeine per serving. -/
def b2 : Beverage :=
  { id := 2, name := "Espresso", caffeine_content_mg := 95,
    image_url := none, category := none }

/-- Consumption entry of user 1: two servings of beverage 1 on day 0. -/
def e1 : Consumption :=
  { id := 1, user_id := 1, beverage_id := 1, consumption_time := 0,
    serving_count := 2 }

/-- Consumption entry of user 2: one serving of beverage 1 on day 0. -/
def e2 : Consumption :=
  { id := 2, user_id := 2, beverage_id := 1, consumption_time := 0,
    serving_count := 1 }

/-- A small populated store: three users, two beverages, two consumption
entries. -/
def sC : DBState :=
  { users := [u1, u2, u3], beverages := [b1, b2], consumption_log := [e1, e2],
    next_user_id := 4, next_beverage_id := 3, next_consumption_id := 3 }

/-- The store right after table creation: all three tables empty. -/
def sEmpty : DBState :=
  { users := [], beverages := [], consumption_log := [],
    next_user_id := 1, next_beverage_id := 1, next_consumption_id := 1 }

example : App.get_consumption_today sC 0 1 =
    .ok 200 { date := 0, total_caffeine_mg := 150,
              breakdown := [{ beverage := "Coffee", servings := 2, caffeine_mg := 150 }] } := by
  decide

example : statusOf (App.get_user_stats sC 0 1) = 200 := rfl

example : App.get_user_stats sEmpty 0 1 = .crash "TypeError: user is None" := by
  decide

example : dailyTotalSpec sC 1 0 = 150 := by decide

example : App.get_consumption_weekly sC 0 1 =
    .ok 200 [(0, 150), (-1, 0), (-2, 0), (-3, 0), (-4, 0), (-5, 0), (-6, 0)] := by
  decide

/-! Helper lemmas about the embedded operations. -/

theorem bevsOk_on_date {s : DBState} {user_id : Nat} (h : BevsOk s user_id) (date : Int) :
    ∀ c ∈ Db.get_consumption_by_user_and_date s user_id date,
      (Db.get_beverage_by_id s c.beverage_id).isSome = true := by
  intro c hc
  rw [Db.get_consumption_by_user_and_date] at hc
  obtain ⟨hmem, hp⟩ := List.mem_filter.mp hc
  simp only [Bool.and_eq_true, beq_iff_eq] at hp
  exact h c hmem hp.1

theorem sumCaffeineLoop_eq (s : DBState) (cs : List Consumption) :
    ∀ total : Int,
    (∀ c ∈ cs, (Db.get_beverage_by_id s c.beverage_id).isSome = true) →
    App.sumCaffeineLoop s total cs = some (total + (cs.map (caffeineOf s)).sum) := by
  induction cs with
  | nil => intro total _; simp [App.sumCaffeineLoop]
  | cons c rest ih =>
    intro total h
    obtain ⟨b, hb⟩ := Option.isSome_iff_exists.mp (h c (List.mem_cons_self c rest))
    have hrest : ∀ x ∈ rest, (Db.get_beverage_by_id s x.beverage_id).isSome = true :=
      fun x hx => h x (List.mem_cons_of_mem c hx)
    simp only [App.sumCaffeineLoop, hb]
    rw [ih _ hrest]
    simp only [List.map_cons, List.sum_cons, caffeineOf, hb]
    congr 1
    ring

theorem todayLoop_eq (s : DBState) (cs : List Consumption) :
    ∀ (total : Int) (breakdown : List BreakdownItem),
    (∀ c ∈ cs, (Db.get_beverage_by_id s c.beverage_id).isSome = true) →
    ∃ br, App.todayLoop s total breakdown cs = some (total + (cs.map (caffeineOf s)).sum, br) := by
  induction cs with
  | nil => intro total breakdown _; exact ⟨breakdown, by simp [App.todayLoop]⟩
  | cons c rest ih =>
    intro total breakdown h
    obtain ⟨b, hb⟩ := Option.isSome_iff_exists.mp (h c (List.mem_cons_self c rest))
    have hrest : ∀ x ∈ rest, (Db.get_beverage_by_id s x.beverage_id).isSome = true :=
      fun x hx => h x (List.mem_cons_of_mem c hx)
    obtain ⟨br, hbr⟩ := ih (total + b.caffeine_content_mg * c.serving_count)
      (breakdown ++ [{ beverage := b.name, servings := c.serving_count,
                       caffeine_mg := b.caffeine_content_mg * c.serving_count }]) hrest
    refine ⟨br, ?_⟩
    simp only [App.todayLoop, hb]
    rw [hbr]
    simp only [List.map_cons, List.sum_cons, caffeineOf, hb]
    congr 2
    ring

theorem get_consumption_today_eq (s : DBState) (today : Int) (user_id : Nat)
    (h : BevsOk s user_id) :
    ∃ br, App.get_consumption_today s today user_id =
      .ok 200 { date := today, total_caffeine_mg := dailyTotalSpec s user_id today,
                breakdown := br } := by
  obtain ⟨br, hbr⟩ := todayLoop_eq s (Db.get_consumption_by_user_and_date s user_id today)
    0 [] (bevsOk_on_date h today)
  refine ⟨br, ?_⟩
  rw [App.get_consumption_today, hbr]
  simp [dailyTotalSpec]

theorem weeklyLoop_eq (s : DBState) (user_id : Nat) (today : Int)
    (h : BevsOk s user_id) (ns : List Nat) :
    App.weeklyLoop s user_id today ns =
      some (ns.map (fun (i : Nat) =>
        (today - (i : Int), dailyTotalSpec s user_id (today - (i : Int))))) := by
  induction ns with
  | nil => simp [App.weeklyLoop]
  | cons i rest ih =>
    rw [App.weeklyLoop,
      sumCaffeineLoop_eq s _ 0 (bevsOk_on_date h (today - (i : Int))), ih]
    simp [dailyTotalSpec]

theorem find?_append_of_none {α : Type} (p : α → Bool) (l1 l2 : List α)
    (h : ∀ x ∈ l1, p x = false) :
    List.find? p (l1 ++ l2) = List.find? p l2 := by
  rw [List.find?_append]
  have : List.find? p l1 = none :=
    List.find?_eq_none.mpr (fun x hx => by simp [h x hx])
  rw [this, Option.none_or]

theorem get_consumption_by_id_insert (s : DBState) (user_id beverage_id : Nat)
    (serving_count now : Int) (hfresh : LogIdsFresh s) :
    Db.get_consumption_by_id (Db.insert_consumption s user_id beverage_id serving_count now).2
        (Db.insert_consumption s user_id beverage_id serving_count now).1
      = some { id := s.next_consumption_id, user_id := user_id, beverage_id := beverage_id,
               consumption_time := now, serving_count := serving_count } := by
  simp only [Db.insert_consumption, Db.get_consumption_by_id]
  rw [find?_append_of_none]
  · simp [List.find?]
  · intro c hc
    have := hfresh c hc
    simp only [beq_eq_false_iff_ne, ne_eq]
    omega

theorem get_beverage_by_id_insert (s : DBState) (name : String)
    (caffeine_content_mg : Int) (image_url category : Option String)
    (hfresh : BevIdsFresh s) :
    Db.get_beverage_by_id (Db.insert_beverage s name caffeine_content_mg image_url category).2
        (Db.insert_beverage s name caffeine_content_mg image_url category).1
      = some { id := s.next_beverage_id, name := name,
               caffeine_content_mg := caffeine_content_mg,
               image_url := image_url, category := category } := by
  simp only [Db.insert_beverage, Db.get_beverage_by_id]
  rw [find?_append_of_none]
  · simp [List.find?]
  · intro b hb
    have := hfresh b hb
    simp only [beq_eq_false_iff_ne, ne_eq]
    omega

theorem foldDelete_mem (L : List Consumption) :
    ∀ (s : DBState) (x : Consumption),
    x ∈ (L.foldl (fun st c => Db.delete_consumption_by_id st c.id) s).consumption_log →
    x ∈ s.consumption_log ∧ ∀ c ∈ L, x.id ≠ c.id := by
  induction L with
  | nil => intro s x hx; exact ⟨hx, by simp⟩
  | cons c L ih =>
    intro s x hx
    rw [List.foldl_cons] at hx
    obtain ⟨hmem, hids⟩ := ih _ x hx
    obtain ⟨hx2, hne⟩ := List.mem_filter.mp hmem
    refine ⟨hx2, ?_⟩
    intro c2 hc2
    rcases List.mem_cons.mp hc2 with rfl | h2
    · simpa using hne
    · exact hids c2 h2

theorem foldDelete_users (L : List Consumption) :
    ∀ s : DBState,
    (L.foldl (fun st c => Db.delete_consumption_by_id st c.id) s).users = s.users := by
  induction L with
  | nil => intro s; rfl
  | cons c L ih => intro s; rw [List.foldl_cons, ih]; rfl

theorem foldl_append_mem {α β : Type} (g : β → List α) (us : List β) :
    ∀ (acc : List α) (x : α),
    x ∈ us.foldl (fun a u => a ++ g u) acc → x ∈ acc ∨ ∃ u ∈ us, x ∈ g u := by
  induction us with
  | nil => intro acc x hx; exact .inl hx
  | cons u us ih =>
    intro acc x hx
    rcases ih _ x hx with h | ⟨v, hv, hx2⟩
    · rcases List.mem_append.mp h with h1 | h2
      · exact .inl h1
      · exact .inr ⟨u, List.mem_cons_self u us, h2⟩
    · exact .inr ⟨v, List.mem_cons_of_mem u hv, hx2⟩

theorem pyRound2_zero : pyRound2 0 = 0 := by
  have h0 : roundHalfEven 0 = 0 := by decide
  rw [pyRound2, zero_mul, h0]
  norm_num

theorem get_beverage_by_id_insert_consumption (s : DBState) (user_id beverage_id : Nat)
    (serving_count now : Int) (x : Nat) :
    Db.get_beverage_by_id (Db.insert_consumption s user_id beverage_id serving_count now).2 x
      = Db.get_beverage_by_id s x := rfl

theorem caffeineOf_insert_consumption (s : DBState) (user_id beverage_id : Nat)
    (serving_count now : Int) :
    caffeineOf (Db.insert_consumption s user_id beverage_id serving_count now).2
      = caffeineOf s := by
  funext c; rfl

/-! The claims. -/

/-- C1: the daily total reported by `GET /users/{id}/consumption/today`
equals the sum of `beverage.caffeine_content_mg * entry.serving_count` over
the user's consumption entries dated that day; a date with no entries totals
0; and inserting one entry with `serving_count = 2` for a beverage with
`caffeine_content_mg = 95` raises the reported total by exactly 190. -/
theorem daily_total_correct
    (s : DBState) (d d2 : Int) (uid bid : Nat) (b : Beverage)
    (hb : BevsOk s uid)
    (hd2 : Db.get_consumption_by_user_and_date s uid d2 = [])
    (hbid : Db.get_beverage_by_id s bid = some b)
    (hcaff : b.caffeine_content_mg = 95) :
    reportedTotal (App.get_consumption_today s d uid) = some (dailyTotalSpec s uid d)
    ∧ App.get_consumption_today s d2 uid =
        .ok 200 { date := d2, total_caffeine_mg := 0, breakdown := [] }
    ∧ reportedTotal
        (App.get_consumption_today (Db.insert_consumption s uid bid 2 d).2 d uid)
      = some (dailyTotalSpec s uid d + 190) := by
  refine ⟨?_, ?_, ?_⟩
  · obtain ⟨br, h⟩ := get_consumption_today_eq s d uid hb
    rw [h]; rfl
  · rw [App.get_consumption_today, hd2]
    simp [App.todayLoop]
  · have hBevsOk2 : BevsOk (Db.insert_consumption s uid bid 2 d).2 uid := by
      intro c hc hcu
      rw [get_beverage_by_id_insert_consumption]
      simp only [Db.insert_consumption, List.mem_append] at hc
      rcases hc with h1 | h2
      · exact hb c h1 hcu
      · simp only [List.mem_singleton] at h2
        subst h2
        simp [hbid]
    obtain ⟨br, hh⟩ := get_consumption_today_eq (Db.insert_consumption s uid bid 2 d).2 d uid hBevsOk2
    rw [hh]
    have htot : dailyTotalSpec (Db.insert_consumption s uid bid 2 d).2 uid d
        = dailyTotalSpec s uid d + 190 := by
      simp only [dailyTotalSpec, Db.get_consumption_by_user_and_date,
        caffeineOf_insert_consumption]
      rw [show (Db.insert_consumption s uid bid 2 d).2.consumption_log
            = s.consumption_log ++
              [{ id := s.next_consumption_id, user_id := uid, beverage_id := bid,
                 consumption_time := d, serving_count := 2 }] from rfl]
      rw [List.filter_append, List.map_append, List.sum_append]
      simp [caffeineOf, hbid, hcaff]
    rw [htot]
    rfl

/-- Witness for C1 at the concrete store `sC`, date 0, user 1, beverage 2
(95 mg per serving): the reported total is the spec sum, day 5 (no entries)
totals 0, and inserting two servings of beverage 2 adds exactly 190 mg. -/
theorem daily_total_correct_witness :
    reportedTotal (App.get_consumption_today sC 0 1) = some (dailyTotalSpec sC 1 0)
    ∧ App.get_consumption_today sC 5 1 =
        .ok 200 { date := 5, total_caffeine_mg := 0, breakdown := [] }
    ∧ reportedTotal
        (App.get_consumption_today (Db.insert_consumption sC 1 2 2 0).2 0 1)
      = some (dailyTotalSpec sC 1 0 + 190) :=
  daily_total_correct sC 0 5 1 2 b2 (by decide) (by decide) (by decide) (by decide)

/-- C2: for an existing user, `GET /users/{id}/stats` reports
`percentage_of_limit = round(daily_total / daily_limit * 100, 2)` when the
daily limit is positive and `0` when it is not (no division-by-zero fault),
and `remaining_mg = max(0, daily_limit - daily_total)`, which is never
negative. -/
theorem stats_postcondition
    (s : DBState) (d : Int) (uid : Nat) (u : User)
    (s2 : DBState) (d2 : Int) (uid2 : Nat) (u2 : User)
    (hu : Db.get_user_by_id s uid = some u)
    (hb : BevsOk s uid)
    (hL : 0 < u.daily_caffeine_limit)
    (hu2 : Db.get_user_by_id s2 uid2 = some u2)
    (hb2 : BevsOk s2 uid2)
    (hL2 : u2.daily_caffeine_limit ≤ 0) :
    App.get_user_stats s d uid = .ok 200
      { user_id := uid,
        daily_total_caffeine_mg := dailyTotalSpec s uid d,
        daily_limit_mg := u.daily_caffeine_limit,
        percentage_of_limit :=
          pyRound2 ((dailyTotalSpec s uid d : Rat) / (u.daily_caffeine_limit : Rat) * 100),
        remaining_mg := max 0 (u.daily_caffeine_limit - dailyTotalSpec s uid d) }
    ∧ 0 ≤ max 0 (u.daily_caffeine_limit - dailyTotalSpec s uid d)
    ∧ App.get_user_stats s2 d2 uid2 = .ok 200
      { user_id := uid2,
        daily_total_caffeine_mg := dailyTotalSpec s2 uid2 d2,
        daily_limit_mg := u2.daily_caffeine_limit,
        percentage_of_limit := 0,
        remaining_mg := max 0 (u2.daily_caffeine_limit - dailyTotalSpec s2 uid2 d2) } := by
  refine ⟨?_, le_max_left _ _, ?_⟩
  · simp only [App.get_user_stats]
    rw [sumCaffeineLoop_eq s _ 0 (bevsOk_on_date hb d)]
    simp only [hu, zero_add]
    rw [if_pos hL]
    rfl
  · simp only [App.get_user_stats]
    rw [sumCaffeineLoop_eq s2 _ 0 (bevsOk_on_date hb2 d2)]
    have hneg : ¬ (u2.daily_caffeine_limit > 0) := by omega
    simp only [hu2, zero_add]
    rw [if_neg hneg, pyRound2_zero]
    rfl

/-- Witness for C2 at the store `sC`: user 1 has limit 100 and a daily total
of 150 mg on day 0 (so the remaining amount clamps to 0), and user 3 has a
non-positive limit, for which the percentage is 0. -/
theorem stats_postcondition_witness :
    App.get_user_stats sC 0 1 = .ok 200
      { user_id := 1,
        daily_total_caffeine_mg := dailyTotalSpec sC 1 0,
        daily_limit_mg := u1.daily_caffeine_limit,
        percentage_of_limit :=
          pyRound2 ((dailyTotalSpec sC 1 0 : Rat) / (u1.daily_caffeine_limit : Rat) * 100),
        remaining_mg := max 0 (u1.daily_caffeine_limit - dailyTotalSpec sC 1 0) }
    ∧ 0 ≤ max 0 (u1.daily_caffeine_limit - dailyTotalSpec sC 1 0)
    ∧ App.get_user_stats sC 0 3 = .ok 200
      { user_id := 3,
        daily_total_caffeine_mg := dailyTotalSpec sC 3 0,
        daily_limit_mg := u3.daily_caffeine_limit,
        percentage_of_limit := 0,
        remaining_mg := max 0 (u3.daily_caffeine_limit - dailyTotalSpec sC 3 0) } :=
  stats_postcondition sC 0 1 u1 sC 0 3 u3 rfl (by decide) (by decide) rfl
    (by decide) (by decide)

/-- C3 counterexample: in the store `sC`, entry 2 belongs to user 2, yet
`DELETE /users/1/consumptions/2` answers 200 (not 403) and removes the
entry: `delete_consumption` has no ownership check. -/
theorem ownership_delete_counterexample :
    (App.delete_consumption sC 1 2).1 = .ok 200 e2
    ∧ statusOf (App.delete_consumption sC 1 2).1 ≠ 403
    ∧ (App.delete_consumption sC 1 2).2.consumption_log = [e1] :=
  ⟨rfl, by decide, rfl⟩

/-- C3 amended: when the path user exists, the entry exists and is owned by
a different user, `PUT /users/{A}/consumptions/{log_id}` is rejected with
403 and the store is unchanged; `DELETE` on the same path, however, performs
no ownership check: it answers 200 and deletes the entry anyway. -/
theorem ownership_amended
    (s : DBState) (uid lid : Nat) (sc : Int) (c : Consumption) (u : User)
    (hu : Db.get_user_by_id s uid = some u)
    (hsc : 0 < sc)
    (hc : Db.get_consumption_by_id s lid = some c)
    (hown : c.user_id ≠ uid) :
    App.update_consumption s uid lid (some { serving_count := some sc })
      = (.failure 403 "Consumption entry does not belong to this user", s)
    ∧ App.delete_consumption s uid lid = (.ok 200 c, Db.delete_consumption_by_id s lid)
    ∧ ((Db.delete_consumption_by_id s lid).consumption_log.all (fun x => x.id != lid)) = true := by
  refine ⟨?_, ?_, ?_⟩
  · simp only [App.update_consumption, hu, hc]
    rw [if_neg (by omega : ¬ sc ≤ 0), if_pos hown]
  · simp only [App.delete_consumption, hu, hc]
  · rw [List.all_eq_true]
    intro x hx
    exact (List.mem_filter.mp hx).2

/-- Witness for C3 (amended) in the store `sC`: entry 2 is owned by user 2;
through path user 1 the `PUT` yields 403 and no change, the `DELETE` yields
200 and removes the entry. -/
theorem ownership_amended_witness :
    App.update_consumption sC 1 2 (some { serving_count := some 5 })
      = (.failure 403 "Consumption entry does not belong to this user", sC)
    ∧ App.delete_consumption sC 1 2 = (.ok 200 e2, Db.delete_consumption_by_id sC 2)
    ∧ ((Db.delete_consumption_by_id sC 2).consumption_log.all (fun x => x.id != 2)) = true :=
  ownership_amended sC 1 2 5 e2 u1 rfl (by decide) rfl (by decide)

/-- C4: for an existing user and beverage and a valid serving count
(defaulting to 1 when absent from the body),
`POST /users/{id}/consumptions` appends exactly one new row carrying the
current timestamp and returns it with status 201. -/
theorem log_consumption_inserts
    (s : DBState) (now : Int) (uid bid : Nat) (scOpt : Option Int)
    (u : User) (b : Beverage)
    (hu : Db.get_user_by_id s uid = some u)
    (hbid : Db.get_beverage_by_id s bid = some b)
    (hsc : 0 < scOpt.getD 1)
    (hfresh : LogIdsFresh s) :
    App.log_consumption s now uid (some { beverage_id := some bid, serving_count := scOpt })
      = (.ok 201 (some { id := s.next_consumption_id, user_id := uid, beverage_id := bid,
                          consumption_time := now, serving_count := scOpt.getD 1 }),
         (Db.insert_consumption s uid bid (scOpt.getD 1) now).2)
    ∧ (Db.insert_consumption s uid bid (scOpt.getD 1) now).2.consumption_log
        = s.consumption_log ++
          [{ id := s.next_consumption_id, user_id := uid, beverage_id := bid,
             consumption_time := now, serving_count := scOpt.getD 1 }]
    ∧ (Db.insert_consumption s uid bid (scOpt.getD 1) now).2.users = s.users
    ∧ (Db.insert_consumption s uid bid (scOpt.getD 1) now).2.beverages = s.beverages := by
  refine ⟨?_, rfl, rfl, rfl⟩
  simp only [App.log_consumption, hu]
  rw [if_neg (by omega : ¬ scOpt.getD 1 ≤ 0),
    if_neg (by simp [hbid] : ¬ (Db.get_beverage_by_id s bid).isNone = true)]
  rw [get_consumption_by_id_insert s uid bid (scOpt.getD 1) now hfresh]

/-- Witness for C4 at the store `sC`: user 1 logs 2 servings of beverage 2
on day 7; one row with id 3 and timestamp 7 is appended and returned with
201. -/
theorem log_consumption_inserts_witness :
    App.log_consumption sC 7 1 (some { beverage_id := some 2, serving_count := some 2 })
      = (.ok 201 (some { id := 3, user_id := 1, beverage_id := 2,
                          consumption_time := 7, serving_count := 2 }),
         (Db.insert_consumption sC 1 2 2 7).2)
    ∧ (Db.insert_consumption sC 1 2 2 7).2.consumption_log
        = sC.consumption_log ++
          [{ id := 3, user_id := 1, beverage_id := 2,
             consumption_time := 7, serving_count := 2 }]
    ∧ (Db.insert_consumption sC 1 2 2 7).2.users = sC.users
    ∧ (Db.insert_consumption sC 1 2 2 7).2.beverages = sC.beverages :=
  log_consumption_inserts sC 7 1 2 (some 2) u1 b2 rfl rfl (by decide) (by decide)

/-- C5: `PUT /beverages/{id}` never reaches the update: for an existing
beverage the handler aliases `body` to the raw request object (app.py line
99) and `body.get("name")` raises `AttributeError`, an unhandled exception
that Flask reports as HTTP 500; the beverage is not overwritten and no
updated beverage is returned.  Evaluation at the concrete failing input:
beverage 1 exists in `sC`. -/
theorem update_beverage_crashes :
    App.update_beverage sC 1
      = (.crash "AttributeError: request object has no attribute get", sC)
    ∧ statusOf (App.update_beverage sC 1).1 = 500 :=
  ⟨rfl, rfl⟩

/-- C6 counterexample: with all tables empty, user 1 does not exist, yet
`GET /users/1/consumption/today` answers 200 with a zero total (no 404), and
`GET /users/1/stats` dies on an unhandled `TypeError` (500), not 404. -/
theorem notfound_counterexample :
    App.get_consumption_today sEmpty 0 1 =
      .ok 200 { date := 0, total_caffeine_mg := 0, breakdown := [] }
    ∧ statusOf (App.get_consumption_today sEmpty 0 1) ≠ 404
    ∧ App.get_user_stats sEmpty 0 1 = .crash "TypeError: user is None"
    ∧ statusOf (App.get_user_stats sEmpty 0 1) ≠ 404 :=
  ⟨by decide, by decide, by decide, by decide⟩

/-- C6 amended: handlers with an explicit existence check do answer 404 for
an absent referenced entity (here `delete_consumption`, for an absent path
user and for an absent entry); but `GET /users/{id}/consumption/today` and
`GET /users/{id}/stats` perform no user-existence check: for an absent user
the former answers 200 with total 0 and the latter raises an unhandled
`TypeError` (HTTP 500), not 404. -/
theorem notfound_amended
    (s : DBState) (d : Int) (uid lid uid2 lid2 : Nat) (u2 : User)
    (h1 : Db.get_user_by_id s uid = none)
    (h2 : ∀ c ∈ s.consumption_log, c.user_id ≠ uid)
    (h3 : Db.get_user_by_id s uid2 = some u2)
    (h4 : Db.get_consumption_by_id s lid2 = none) :
    App.delete_consumption s uid lid = (.failure 404 "User not found", s)
    ∧ App.delete_consumption s uid2 lid2 = (.failure 404 "Consumption entry not found", s)
    ∧ App.get_consumption_today s d uid =
        .ok 200 { date := d, total_caffeine_mg := 0, breakdown := [] }
    ∧ App.get_user_stats s d uid = .crash "TypeError: user is None" := by
  have hfilter : Db.get_consumption_by_user_and_date s uid d = [] := by
    rw [Db.get_consumption_by_user_and_date, List.filter_eq_nil_iff]
    intro c hc
    simp only [Bool.and_eq_true, beq_iff_eq, not_and]
    exact fun hcu _ => h2 c hc hcu
  refine ⟨?_, ?_, ?_, ?_⟩
  · simp only [App.delete_consumption, h1]
  · simp only [App.delete_consumption, h3, h4]
  · rw [App.get_consumption_today, hfilter]
    simp [App.todayLoop]
  · simp only [App.get_user_stats, hfilter, h1]
    rfl

/-- Witness for C6 (amended) in the store `sC`: user 9 does not exist, user
1 does, entry 99 does not. -/
theorem notfound_amended_witness :
    App.delete_consumption sC 9 1 = (.failure 404 "User not found", sC)
    ∧ App.delete_consumption sC 1 99 = (.failure 404 "Consumption entry not found", sC)
    ∧ App.get_consumption_today sC 0 9 =
        .ok 200 { date := 0, total_caffeine_mg := 0, breakdown := [] }
    ∧ App.get_user_stats sC 0 9 = .crash "TypeError: user is None" :=
  notfound_amended sC 0 9 1 1 99 u1 (by decide) (by decide) rfl (by decide)

/-- C7: `DELETE /users/{id}` deletes every consumption entry owned by the
user, then the user row, and returns a confirmation; afterwards the admin
`GET /consumption` listing contains none of that user's entries. -/
theorem delete_user_cascade (s : DBState) (uid : Nat) :
    (App.delete_user s uid).1 = .ok 200 uid
    ∧ Db.get_user_by_id (App.delete_user s uid).2 uid = none
    ∧ ((App.delete_user s uid).2.consumption_log.all (fun c => c.user_id != uid)) = true
    ∧ ((consumptionPayload (App.get_all_consumption (App.delete_user s uid).2)).all
        (fun c => c.user_id != uid)) = true := by
  have hlog : ∀ x ∈ (App.delete_user s uid).2.consumption_log, x.user_id ≠ uid := by
    intro x hx
    have hx1 : x ∈ ((Db.get_consumption_by_user_id s uid).foldl
        (fun st c => Db.delete_consumption_by_id st c.id) s).consumption_log := hx
    obtain ⟨hmem, hids⟩ := foldDelete_mem (Db.get_consumption_by_user_id s uid) s x hx1
    intro hcu
    have hxL : x ∈ Db.get_consumption_by_user_id s uid := by
      rw [Db.get_consumption_by_user_id]
      exact List.mem_filter.mpr ⟨hmem, by simp [hcu]⟩
    exact hids x hxL rfl
  refine ⟨rfl, ?_, ?_, ?_⟩
  · show (Db.delete_user_by_id _ uid).users.find? _ = none
    rw [List.find?_eq_none]
    intro x hx
    have := (List.mem_filter.mp hx).2
    simp only [bne_iff_ne, ne_eq] at this
    simp [this]
  · rw [List.all_eq_true]
    intro x hx
    simpa using hlog x hx
  · rw [List.all_eq_true]
    intro x hx
    simp only [consumptionPayload, App.get_all_consumption] at hx
    rcases foldl_append_mem _ _ [] x hx with h | ⟨v, _, hx2⟩
    · cases h
    · have hx3 : x ∈ (App.delete_user s uid).2.consumption_log :=
        (List.mem_filter.mp hx2).1
      simpa using hlog x hx3

/-- C8: `GET /users/{id}/consumption/weekly` returns a mapping with exactly
7 distinct keys — the 7 calendar dates ending today, most recent first —
each mapped to that date's daily total, and a date with no entries totals
0. -/
theorem weekly_summary_correct
    (s : DBState) (today d2 : Int) (uid : Nat)
    (hb : BevsOk s uid)
    (hd2 : Db.get_consumption_by_user_and_date s uid d2 = []) :
    App.get_consumption_weekly s today uid
      = .ok 200 ((List.range 7).map
          (fun (i : Nat) => (today - (i : Int), dailyTotalSpec s uid (today - (i : Int)))))
    ∧ ((List.range 7).map
        (fun (i : Nat) => (today - (i : Int), dailyTotalSpec s uid (today - (i : Int))))).length = 7
    ∧ (((List.range 7).map
        (fun (i : Nat) => (today - (i : Int), dailyTotalSpec s uid (today - (i : Int))))).map
          Prod.fst).Nodup
    ∧ dailyTotalSpec s uid d2 = 0 := by
  refine ⟨?_, by rw [List.length_map, List.length_range], ?_, ?_⟩
  · rw [App.get_consumption_weekly, weeklyLoop_eq s uid today hb]
  · rw [List.map_map]
    have hcomp : (Prod.fst ∘ fun (i : Nat) =>
        (today - (i : Int), dailyTotalSpec s uid (today - (i : Int))))
        = fun (i : Nat) => today - (i : Int) := rfl
    rw [hcomp]
    exact (List.nodup_range 7).map (fun a b hab => by omega)
  · rw [dailyTotalSpec, hd2]
    rfl

/-- Witness for C8 at the store `sC`, user 1, today = day 0; day 9 has no
entries. -/
theorem weekly_summary_correct_witness :
    App.get_consumption_weekly sC 0 1
      = .ok 200 ((List.range 7).map
          (fun (i : Nat) => ((0 : Int) - (i : Int), dailyTotalSpec sC 1 ((0 : Int) - (i : Int)))))
    ∧ ((List.range 7).map
        (fun (i : Nat) => ((0 : Int) - (i : Int), dailyTotalSpec sC 1 ((0 : Int) - (i : Int))))).length = 7
    ∧ (((List.range 7).map
        (fun (i : Nat) => ((0 : Int) - (i : Int), dailyTotalSpec sC 1 ((0 : Int) - (i : Int))))).map
          Prod.fst).Nodup
    ∧ dailyTotalSpec sC 1 9 = 0 :=
  weekly_summary_correct sC 0 9 1 (by decide) (by decide)

/-- C9: a valid `POST /beverages` (non-empty name, non-negative integer
caffeine) answers 201 with the stored row, and fetching the beverage by the
returned id yields exactly the submitted name, caffeine content, image URL
and category. -/
theorem create_beverage_roundtrip
    (s : DBState) (name : String) (caffeine : Int) (img cat : Option String)
    (hname : ¬ name = "")
    (hcaff : 0 ≤ caffeine)
    (hfresh : BevIdsFresh s) :
    App.create_beverage s (some { name := some name, image_url := img,
                                  category := cat, caffeine_content_mg := some caffeine })
      = (.ok 201 (some { id := s.next_beverage_id, name := name,
                          caffeine_content_mg := caffeine, image_url := img,
                          category := cat }),
         (Db.insert_beverage s name caffeine img cat).2)
    ∧ Db.get_beverage_by_id (Db.insert_beverage s name caffeine img cat).2
          s.next_beverage_id
        = some { id := s.next_beverage_id, name := name, caffeine_content_mg := caffeine,
                 image_url := img, category := cat } := by
  have hlook := get_beverage_by_id_insert s name caffeine img cat hfresh
  refine ⟨?_, hlook⟩
  simp only [App.create_beverage]
  rw [if_neg hname, if_neg (by omega : ¬ caffeine < 0), hlook]

/-- Witness for C9 at the store `sC`: submitting name Tea, 40 mg, no image,
category tea produces beverage 3 and fetching id 3 returns exactly those
fields. -/
theorem create_beverage_roundtrip_witness :
    App.create_beverage sC (some { name := some "Tea", image_url := none,
                                   category := some "tea", caffeine_content_mg := some 40 })
      = (.ok 201 (some { id := 3, name := "Tea", caffeine_content_mg := 40,
                          image_url := none, category := some "tea" }),
         (Db.insert_beverage sC "Tea" 40 none (some "tea")).2)
    ∧ Db.get_beverage_by_id (Db.insert_beverage sC "Tea" 40 none (some "tea")).2 3
        = some { id := 3, name := "Tea", caffeine_content_mg := 40,
                 image_url := none, category := some "tea" } :=
  create_beverage_roundtrip sC "Tea" 40 none (some "tea") (by decide) (by decide)
    (by decide)

/-- C10: for a user id with no user row, `DELETE /users/{id}` performs no
existence check: it still answers 200 with the confirmation payload and
(under the referential invariant that every consumption entry references an
existing user) leaves the store completely unchanged. -/
theorem delete_user_missing_noop
    (s : DBState) (uid : Nat)
    (hu : Db.get_user_by_id s uid = none)
    (hrefs : UsersOk s) :
    App.delete_user s uid = (.ok 200 uid, s) := by
  have husers : ∀ x ∈ s.users, (x.id == uid) = false := by
    intro x hx
    have := List.find?_eq_none.mp hu x hx
    simpa using this
  have hL : Db.get_consumption_by_user_id s uid = [] := by
    rw [Db.get_consumption_by_user_id, List.filter_eq_nil_iff]
    intro c hc
    simp only [beq_iff_eq]
    intro hcu
    have hsome := hrefs c hc
    rw [hcu, hu] at hsome
    simp at hsome
  simp only [App.delete_user]
  rw [hL]
  simp only [List.foldl_nil, Db.delete_user_by_id]
  rw [List.filter_eq_self.mpr (fun x hx => by simp [bne, husers x hx])]

/-- Witness for C10 at the store `sC`: user 9 does not exist;
`DELETE /users/9` answers 200 with the confirmation and the store is
unchanged. -/
theorem delete_user_missing_noop_witness :
    App.delete_user sC 9 = (.ok 200 9, sC) :=
  delete_user_missing_noop sC 9 (by decide) (by decide)

